import Mathlib

/-
  Verification development for the ClawK streaming TTS gateway
  (src/ClawK/Resources/tts_server.py).

  The server-side logic is shallowly embedded below:
  * the per-client sliding-log rate limiter (check_rate_limit, lines 56-68),
  * the connection registry / admission control (handle_tts, lines 75-80 and
    the finally-block removal),
  * the per-message session protocol (handle_tts, lines 83-148): rate gate,
    JSON decode with plain-text fallback, health check, length validation,
    voice validation, synthesis streaming with the END sentinel,
  * the shutdown coordinator (main, lines 177-189), modelled as the list of
    actions it performs in order.

  External collaborators (the edge-tts synthesis engine and the websocket
  transport) are modelled as parameters: the synthesis engine as a function
  from (text, voice) to a finite chunk list plus an optional failure, and
  the transport as reliable delivery of the responses the handler emits.
  Timestamps (time.monotonic) are modelled as integers; JSON values as an
  inductive type, with the outcome of json.loads supplied as part of the
  inbound message.
-/

namespace ClawK

/-! ## Configuration constants (tts_server.py lines 14-39) -/

def MAX_TEXT_LENGTH : Nat := 5000

def MAX_CONNECTIONS : Nat := 5

def RATE_LIMIT_WINDOW : Int := 60

def RATE_LIMIT_MAX_REQUESTS : Nat := 20

def SHUTDOWN_TIMEOUT : Nat := 5

def SERVER_VERSION : String := "1.0.0"

/-- The built-in default voice, used when the EDGE_TTS_VOICE environment
variable is not set (line 14).  Because the environment may override it,
the session handler below is parameterised over the configured default. -/
def builtinDefaultVoice : String := "en-GB-RyanNeural"

/-- ALLOWED_VOICES (lines 25-35). -/
def ALLOWED_VOICES : List String :=
  ["en-GB-RyanNeural", "en-US-GuyNeural", "en-US-JennyNeural",
   "en-US-AriaNeural", "en-GB-SoniaNeural", "en-AU-NatashaNeural",
   "en-AU-WilliamNeural", "en-IN-NeerjaNeural", "en-IN-PrabhatNeural"]

/-! ## Rate limiter (check_rate_limit, lines 56-68)

`rate_limit_tracker` is a dict from client key to a list of timestamps;
`dict.get(key, [])` treats an absent key as the empty list, which the
total-function model below realises by starting from `emptyTracker`. -/

def Tracker : Type := String → List Int

def emptyTracker : Tracker := fun _ => []

/-- Dict assignment `rate_limit_tracker[key] = v`. -/
def trackerSet (tr : Tracker) (key : String) (v : List Int) : Tracker :=
  fun k => if k = key then v else tr k

/-- The body of `check_rate_limit(remote)`: prune timestamps outside the window, deny
(storing the pruned list) when the remaining count has reached
RATE_LIMIT_MAX_REQUESTS, otherwise append `now`, store and admit. -/
def check_rate_limit (tr : Tracker) (key : String) (now : Int) : Bool × Tracker :=
  let timestamps := (tr key).filter (fun t => now - t < RATE_LIMIT_WINDOW)
  if RATE_LIMIT_MAX_REQUESTS ≤ timestamps.length then
    (false, trackerSet tr key timestamps)
  else
    (true, trackerSet tr key (timestamps ++ [now]))

/-- Fold `check_rate_limit` over a list of request times for one key,
collecting the admit/deny decisions. -/
def runRequests (tr : Tracker) (key : String) : List Int → List Bool × Tracker
  | [] => ([], tr)
  | t :: ts =>
    let r := check_rate_limit tr key t
    let rest := runRequests r.2 key ts
    (r.1 :: rest.1, rest.2)

/-- All pairs of timestamps in `L` lie within one RATE_LIMIT_WINDOW of
each other. -/
def withinWindow (L : List Int) : Prop :=
  ∀ a ∈ L, ∀ b ∈ L, b - a < RATE_LIMIT_WINDOW

instance (L : List Int) : Decidable (withinWindow L) := by
  unfold withinWindow; infer_instance

/-! ## Connection registry (handle_tts lines 75-80, finally block)

`connected_clients` is a set of websocket handles; handles are modelled as
naturals. -/

inductive AdmitResult where
  | accepted
  | rejected (code : Nat) (reason : String)
deriving DecidableEq

/-- Admission check at the top of handle_tts: refuse with close code 1013
when the registry is full, otherwise add the session. -/
def admitConnection (clients : Finset Nat) (ws : Nat) : AdmitResult × Finset Nat :=
  if MAX_CONNECTIONS ≤ clients.card then
    (AdmitResult.rejected 1013 "Maximum connections reached", clients)
  else
    (AdmitResult.accepted, insert ws clients)

/-- Removal `connected_clients.discard(websocket)` in the finally block. -/
def removeConnection (clients : Finset Nat) (ws : Nat) : Finset Nat :=
  clients.erase ws

inductive ConnEvent where
  | connect (ws : Nat)
  | disconnect (ws : Nat)

def connStep (clients : Finset Nat) : ConnEvent → Finset Nat
  | ConnEvent.connect ws => (admitConnection clients ws).2
  | ConnEvent.disconnect ws => removeConnection clients ws

/-- Registry contents after a sequence of connect/disconnect events,
starting from the empty registry. -/
def runConnEvents (events : List ConnEvent) : Finset Nat :=
  events.foldl connStep ∅

/-! ## JSON values and inbound messages -/

/-- The values `json.loads` can produce.  Numbers are modelled as integers
(no claim depends on fractional values). -/
inductive Json where
  | obj (fields : List (String × Json))
  | arr (elems : List Json)
  | str (s : String)
  | num (n : Int)
  | bool (b : Bool)
  | null

/-- Python dict lookup on the object produced by `json.loads`: with
duplicate keys in the source text the last occurrence wins. -/
def jget (fields : List (String × Json)) (key : String) : Option Json :=
  (fields.reverse.find? (fun p => p.1 == key)).map Prod.snd

/-- The test `msg.get("command") == "health"`: true exactly when the field
is present and is the string "health". -/
def isHealthCmd : Option Json → Bool
  | some (Json.str s) => s == "health"
  | _ => false

/-- Python `len` applied to a decoded JSON value: defined for strings,
arrays and objects; on other values `len` raises TypeError, which line 118
does not catch (`none` models that crash). -/
def pyLen : Json → Option Nat
  | Json.str s => some s.length
  | Json.arr xs => some xs.length
  | Json.obj fs => some ((fs.map Prod.fst).dedup.length)
  | _ => none

/-- One inbound websocket frame: whether it is a text frame
(`isinstance(raw, str)`), its text content, and the outcome of
`json.loads(raw)` (`none` models json.JSONDecodeError). -/
structure Inbound where
  isText : Bool
  rawText : String
  parse : Option Json

/-! ## Session message handling (handle_tts lines 83-148) -/

/-- Outbound messages the handler can emit. -/
inductive Response where
  | errorMsg (msg : String)
  | health (status : String) (version : String) (connections : Nat)
  | audio (data : List Nat)
  | endStream
deriving DecidableEq

inductive SessionOutcome where
  | next
  | crash
deriving DecidableEq

def rateLimitMessage : String := "Rate limit exceeded. Try again later."

def guidanceMessage : String :=
  "Send JSON with \x27text\x27 field or a plain text string"

def lengthMessage : String :=
  "Text exceeds maximum length of " ++ toString MAX_TEXT_LENGTH ++ " characters"

/-- Result of the try-block at lines 94-116. -/
inductive Decoded where
  | health
  | request (text : Json) (voice : Option Json)
  | guidance
  | crashed

/-- Python `str.strip()`: drop whitespace from both ends. -/
def pyStrip (s : String) : String :=
  String.mk (((s.data.dropWhile Char.isWhitespace).reverse.dropWhile
    Char.isWhitespace).reverse)

/-- The fallback in the except-branch (lines 108-116): a non-empty text
frame becomes the request text (trimmed); otherwise the guidance error. -/
def fallbackDecode (raw : Inbound) : Decoded :=
  if raw.isText && !(pyStrip raw.rawText == "") then
    Decoded.request (Json.str (pyStrip raw.rawText)) none
  else
    Decoded.guidance

/-- Decode one inbound frame (lines 94-116).  When `json.loads` yields a
non-object, `msg.get("command")` raises AttributeError, which the except
clause (json.JSONDecodeError, KeyError, TypeError) does not catch: the
session crashes (`Decoded.crashed`).  A missing "text" key raises
KeyError, which is caught and routed to the fallback. -/
def decodePhase (raw : Inbound) : Decoded :=
  match raw.parse with
  | some (Json.obj fields) =>
    if isHealthCmd (jget fields "command") then
      Decoded.health
    else
      match jget fields "text" with
      | some t => Decoded.request t (jget fields "voice")
      | none => fallbackDecode raw
  | some _ => Decoded.crashed
  | none => fallbackDecode raw

/-- Voice validation (lines 126-129) applied to the optional "voice"
field.  An absent field defaults to the configured default
(`msg.get("voice", DEFAULT_VOICE)`); a hashable value outside
ALLOWED_VOICES is silently replaced by the default; an unhashable value
(array or object) makes `voice not in ALLOWED_VOICES` raise TypeError
outside any try, crashing the session (`none`). -/
def resolveVoice (defaultVoice : String) : Option Json → Option String
  | none => some defaultVoice
  | some (Json.str s) => some (if s ∈ ALLOWED_VOICES then s else defaultVoice)
  | some (Json.num _) => some defaultVoice
  | some (Json.bool _) => some defaultVoice
  | some Json.null => some defaultVoice
  | some (Json.arr _) => none
  | some (Json.obj _) => none

/-- One chunk produced by `communicate.stream()`: a dict with a "type"
and a "data" field. -/
structure Chunk where
  type : String
  data : List Nat

/-- What one call to the synthesis collaborator produces: the chunks its
stream yields before completing, and `some e` when it raises after
yielding them (lines 133-148 wrap the whole stream in try/except). -/
structure SynthOutcome where
  chunks : List Chunk
  failure : Option String

/-- The messages sent for one dispatched synthesis request (lines
133-148): chunks whose type is "audio" are forwarded as they arrive; on
normal completion the END sentinel follows; on failure the error message
and then the END sentinel follow the chunks already sent. -/
def streamResponses (out : SynthOutcome) : List Response :=
  (out.chunks.filter (fun c => c.type == "audio")).map (fun c => Response.audio c.data)
    ++ (match out.failure with
        | none => [Response.endStream]
        | some e => [Response.errorMsg ("TTS failed: " ++ e), Response.endStream])

/-- Whether an outbound message is a raw audio chunk. -/
def isAudioResp : Response → Bool
  | Response.audio _ => true
  | _ => false

/-- Result of handling one inbound frame. -/
structure HandleResult where
  sent : List Response
  outcome : SessionOutcome
  tracker : Tracker
  dispatched : Option (Json × String)

/-- One iteration of the `async for raw in websocket` loop (lines
83-148): rate gate first, then decode, health short-circuit, length
validation, voice validation, and finally dispatch to the synthesis
collaborator.  `connections` is `len(connected_clients)` at the instant
the frame is handled; `synth` is the external synthesis collaborator. -/
def handle_message (connections : Nat) (defaultVoice : String)
    (synth : Json → String → SynthOutcome)
    (tr : Tracker) (key : String) (now : Int) (raw : Inbound) : HandleResult :=
  let rl := check_rate_limit tr key now
  if rl.1 then
    match decodePhase raw with
    | Decoded.health =>
      ⟨[Response.health "ok" SERVER_VERSION connections], SessionOutcome.next, rl.2, none⟩
    | Decoded.guidance =>
      ⟨[Response.errorMsg guidanceMessage], SessionOutcome.next, rl.2, none⟩
    | Decoded.crashed =>
      ⟨[], SessionOutcome.crash, rl.2, none⟩
    | Decoded.request text voiceJ =>
      match pyLen text with
      | none => ⟨[], SessionOutcome.crash, rl.2, none⟩
      | some n =>
        if MAX_TEXT_LENGTH < n then
          ⟨[Response.errorMsg lengthMessage], SessionOutcome.next, rl.2, none⟩
        else
          match resolveVoice defaultVoice voiceJ with
          | none => ⟨[], SessionOutcome.crash, rl.2, none⟩
          | some voice =>
            ⟨streamResponses (synth text voice), SessionOutcome.next, rl.2,
              some (text, voice)⟩
  else
    ⟨[Response.errorMsg rateLimitMessage], SessionOutcome.next, rl.2, none⟩

/-! ## Shutdown coordinator (main, lines 177-189) -/

inductive ShutdownAction where
  | closeSession (sid : Nat) (code : Nat) (reason : String)
  | waitBounded (timeout : Nat)
  | stopListener
deriving DecidableEq

/-- The sequence of actions main performs after the shutdown trigger:
create a close task for every connected client (code 1001), wait for them
with a bounded timeout when there are any, then `server.close()`, then a
bounded wait for `server.wait_closed()`. -/
def shutdownSequence (clients : List Nat) : List ShutdownAction :=
  clients.map (fun ws => ShutdownAction.closeSession ws 1001 "Server shutting down")
    ++ (if clients.isEmpty then [] else [ShutdownAction.waitBounded SHUTDOWN_TIMEOUT])
    ++ [ShutdownAction.stopListener, ShutdownAction.waitBounded SHUTDOWN_TIMEOUT]

/-- Whether a shutdown action completes without waiting. -/
def notWait : ShutdownAction → Bool
  | ShutdownAction.waitBounded _ => false
  | _ => true

/-- The actions performed before any timed wait, i.e. immediately upon
the shutdown trigger. -/
def issuedBeforeFirstWait (tr : List ShutdownAction) : List ShutdownAction :=
  tr.takeWhile notWait

/-! ## Helper lemmas -/

theorem trackerSet_self (tr : Tracker) (key : String) (v : List Int) :
    trackerSet tr key v key = v := by
  simp [trackerSet]

theorem check_rate_limit_allowed (tr : Tracker) (key : String) (now : Int)
    (h : ((tr key).filter (fun t => now - t < RATE_LIMIT_WINDOW)).length
          < RATE_LIMIT_MAX_REQUESTS) :
    check_rate_limit tr key now =
      (true, trackerSet tr key
        ((tr key).filter (fun t => now - t < RATE_LIMIT_WINDOW) ++ [now])) := by
  unfold check_rate_limit
  rw [if_neg (Nat.not_le.mpr h)]

theorem check_rate_limit_denied (tr : Tracker) (key : String) (now : Int)
    (h : RATE_LIMIT_MAX_REQUESTS ≤
          ((tr key).filter (fun t => now - t < RATE_LIMIT_WINDOW)).length) :
    check_rate_limit tr key now =
      (false, trackerSet tr key ((tr key).filter (fun t => now - t < RATE_LIMIT_WINDOW))) := by
  unfold check_rate_limit
  rw [if_pos h]

theorem runRequests_all_admitted (key : String) :
    ∀ (reqs : List Int) (tr : Tracker),
      withinWindow (tr key ++ reqs) →
      (tr key ++ reqs).length ≤ RATE_LIMIT_MAX_REQUESTS →
      (runRequests tr key reqs).1 = List.replicate reqs.length true ∧
      (runRequests tr key reqs).2 key = tr key ++ reqs := by
  intro reqs
  induction reqs with
  | nil => intro tr _ _; simp [runRequests]
  | cons t ts ih =>
    intro tr hwin hlen
    have hfilter : (tr key).filter (fun x => t - x < RATE_LIMIT_WINDOW) = tr key := by
      apply List.filter_eq_self.mpr
      intro a ha
      have := hwin a (List.mem_append_left _ ha) t
        (List.mem_append_right _ (List.mem_cons_self t ts))
      simpa using this
    have hlt : (tr key).length < RATE_LIMIT_MAX_REQUESTS := by
      have hl := List.length_append (tr key) (t :: ts)
      rw [hl] at hlen
      simp only [List.length_cons] at hlen
      omega
    have hstep := check_rate_limit_allowed tr key t (by rw [hfilter]; exact hlt)
    have htr' : trackerSet tr key ((tr key).filter (fun x => t - x < RATE_LIMIT_WINDOW) ++ [t]) key
        ++ ts = tr key ++ t :: ts := by
      rw [trackerSet_self, hfilter, List.append_assoc, List.singleton_append]
    have hrec := ih (trackerSet tr key ((tr key).filter (fun x => t - x < RATE_LIMIT_WINDOW) ++ [t]))
      (by rw [htr']; exact hwin) (by rw [htr']; exact hlen)
    simp only [runRequests, hstep]
    refine ⟨?_, ?_⟩
    · rw [List.length_cons, List.replicate_succ]
      exact congrArg (List.cons true) hrec.1
    · rw [hrec.2, htr']

theorem connStep_card_le (clients : Finset Nat) (e : ConnEvent)
    (h : clients.card ≤ MAX_CONNECTIONS) :
    (connStep clients e).card ≤ MAX_CONNECTIONS := by
  cases e with
  | connect ws =>
    simp only [connStep, admitConnection]
    by_cases hc : MAX_CONNECTIONS ≤ clients.card
    · rw [if_pos hc]; exact h
    · rw [if_neg hc]
      show (insert ws clients).card ≤ MAX_CONNECTIONS
      have h1 := Finset.card_insert_le ws clients
      have h2 := Nat.not_le.mp hc
      omega
  | disconnect ws =>
    exact le_trans (Finset.card_le_card (Finset.erase_subset _ _)) h

theorem foldl_connStep_card_le (events : List ConnEvent) :
    ∀ (s : Finset Nat), s.card ≤ MAX_CONNECTIONS →
      (events.foldl connStep s).card ≤ MAX_CONNECTIONS := by
  induction events with
  | nil => intro s hs; simpa using hs
  | cons e es ih =>
    intro s hs
    simp only [List.foldl_cons]
    exact ih _ (connStep_card_le s e hs)

theorem handle_message_dispatch_inv (conns : Nat) (dflt : String)
    (synth : Json → String → SynthOutcome) (tr : Tracker) (key : String) (now : Int)
    (raw : Inbound) (t : Json) (v : String)
    (h : (handle_message conns dflt synth tr key now raw).dispatched = some (t, v)) :
    (handle_message conns dflt synth tr key now raw).sent = streamResponses (synth t v)
    ∧ (handle_message conns dflt synth tr key now raw).outcome = SessionOutcome.next := by
  cases hb : (check_rate_limit tr key now).1 with
  | false => simp [handle_message, hb] at h
  | true =>
    cases hd : decodePhase raw with
    | health => simp [handle_message, hb, hd] at h
    | guidance => simp [handle_message, hb, hd] at h
    | crashed => simp [handle_message, hb, hd] at h
    | request text voiceJ =>
      cases hp : pyLen text with
      | none => simp [handle_message, hb, hd, hp] at h
      | some n =>
        by_cases hlen : MAX_TEXT_LENGTH < n
        · simp [handle_message, hb, hd, hp, hlen] at h
        · cases hv : resolveVoice dflt voiceJ with
          | none => simp [handle_message, hb, hd, hp, hlen, hv] at h
          | some v' =>
            simp only [handle_message, hb, hd, hp, hlen, hv, if_true, if_false,
              ite_false] at h ⊢
            simp at h
            simp [h.1, h.2]

theorem streamResponses_audio_count_zero (out : SynthOutcome) :
    ((out.chunks.filter (fun c => c.type == "audio")).map
      (fun c => Response.audio c.data)).count Response.endStream = 0 := by
  apply List.count_eq_zero.mpr
  intro hmem
  obtain ⟨c, _, hc⟩ := List.mem_map.mp hmem
  simp at hc

theorem streamResponses_end_count (out : SynthOutcome) :
    (streamResponses out).count Response.endStream = 1 := by
  unfold streamResponses
  cases hfail : out.failure <;>
    simp [List.count_append, streamResponses_audio_count_zero out, hfail,
      List.count_cons, List.count_nil]

theorem streamResponses_last (out : SynthOutcome) :
    (streamResponses out).getLast? = some Response.endStream := by
  unfold streamResponses
  cases hfail : out.failure <;>
    rw [List.getLast?_append] <;> simp

theorem streamResponses_failure_shape (out : SynthOutcome) (e : String)
    (hfail : out.failure = some e) :
    ∃ pre, streamResponses out
        = pre ++ [Response.errorMsg ("TTS failed: " ++ e), Response.endStream]
      ∧ ∀ r ∈ pre, ∃ d, r = Response.audio d := by
  refine ⟨(out.chunks.filter (fun c => c.type == "audio")).map
    (fun c => Response.audio c.data), ?_, ?_⟩
  · unfold streamResponses
    rw [hfail]
  · intro r hr
    obtain ⟨c, _, hc⟩ := List.mem_map.mp hr
    exact ⟨c.data, hc.symm⟩

/-! ## Claims -/

/-- C1: For a single client key, requests 1 through RATE_LIMIT_MAX_REQUESTS
whose timestamps fall within one RATE_LIMIT_WINDOW are all admitted;
request RATE_LIMIT_MAX_REQUESTS + 1 inside that same window is denied, with
the pruned list stored back unchanged; once all earlier timestamps are
older than the window a new request is admitted again, the stale
timestamps having been pruned and the new time stored. -/
theorem rate_limiter_window_scenario (key : String) (reqs : List Int) (t21 trec : Int)
    (h20 : reqs.length = RATE_LIMIT_MAX_REQUESTS)
    (hwin : withinWindow reqs)
    (h21 : ∀ a ∈ reqs, t21 - a < RATE_LIMIT_WINDOW)
    (hrec : ∀ a ∈ reqs, RATE_LIMIT_WINDOW ≤ trec - a) :
    (runRequests emptyTracker key reqs).1 = List.replicate RATE_LIMIT_MAX_REQUESTS true
    ∧ (check_rate_limit (runRequests emptyTracker key reqs).2 key t21).1 = false
    ∧ (check_rate_limit (runRequests emptyTracker key reqs).2 key t21).2 key = reqs
    ∧ (check_rate_limit
         (check_rate_limit (runRequests emptyTracker key reqs).2 key t21).2 key trec).1 = true
    ∧ (check_rate_limit
         (check_rate_limit (runRequests emptyTracker key reqs).2 key t21).2 key trec).2 key
        = [trec] := by
  have hbase := runRequests_all_admitted key reqs emptyTracker
    (by simpa [emptyTracker] using hwin) (by simpa [emptyTracker] using Nat.le_of_eq h20)
  obtain ⟨hdec, hstate⟩ := hbase
  simp only [emptyTracker, List.nil_append] at hstate
  have hf21 : reqs.filter (fun x => t21 - x < RATE_LIMIT_WINDOW) = reqs := by
    apply List.filter_eq_self.mpr
    intro a ha
    simpa using h21 a ha
  have hden := check_rate_limit_denied (runRequests emptyTracker key reqs).2 key t21
    (by rw [hstate, hf21, h20])
  have hst2 : (check_rate_limit (runRequests emptyTracker key reqs).2 key t21).2 key = reqs := by
    rw [hden]
    simp only
    rw [hstate, hf21, trackerSet_self]
  have hfrec : reqs.filter (fun x => trec - x < RATE_LIMIT_WINDOW) = [] := by
    apply List.filter_eq_nil_iff.mpr
    intro a ha
    simpa using Int.not_lt.mpr (hrec a ha)
  have hallow := check_rate_limit_allowed
    (check_rate_limit (runRequests emptyTracker key reqs).2 key t21).2 key trec
    (by rw [hst2, hfrec]; decide)
  refine ⟨by rw [hdec, h20], by rw [hden], hst2, by rw [hallow], ?_⟩
  rw [hallow]
  simp only
  rw [trackerSet_self, hst2, hfrec, List.nil_append]

/-- Witness for C1 at a concrete run: twenty requests at seconds 0..19 are
all admitted, a twenty-first at second 20 is denied with the stored list
unchanged, and a request at second 100 is admitted with only its own
timestamp stored. -/
theorem rate_limiter_window_scenario_witness :
    (runRequests emptyTracker "client"
        [0, 1, 2, 3, 4, 5, 6, 7, 8, 9, 10, 11, 12, 13, 14, 15, 16, 17, 18, 19]).1
      = List.replicate RATE_LIMIT_MAX_REQUESTS true
    ∧ (check_rate_limit
        (runRequests emptyTracker "client"
          [0, 1, 2, 3, 4, 5, 6, 7, 8, 9, 10, 11, 12, 13, 14, 15, 16, 17, 18, 19]).2
        "client" 20).1 = false
    ∧ (check_rate_limit
        (check_rate_limit
          (runRequests emptyTracker "client"
            [0, 1, 2, 3, 4, 5, 6, 7, 8, 9, 10, 11, 12, 13, 14, 15, 16, 17, 18, 19]).2
          "client" 20).2
        "client" 100).1 = true := by
  have h := rate_limiter_window_scenario "client"
    [0, 1, 2, 3, 4, 5, 6, 7, 8, 9, 10, 11, 12, 13, 14, 15, 16, 17, 18, 19] 20 100
    (by decide) (by decide) (by decide) (by decide)
  exact ⟨h.1, h.2.1, h.2.2.2.1⟩

/-- C2: The registry never holds more than MAX_CONNECTIONS sessions; a
connection attempt while MAX_CONNECTIONS sessions are active is refused
with close code 1013 ("Maximum connections reached") and the registry is
unchanged; after any one active session is removed, a new attempt is
admitted. -/
theorem connection_limit_invariant :
    (∀ events : List ConnEvent, (runConnEvents events).card ≤ MAX_CONNECTIONS)
    ∧ (∀ (clients : Finset Nat) (ws : Nat), clients.card = MAX_CONNECTIONS →
        admitConnection clients ws
          = (AdmitResult.rejected 1013 "Maximum connections reached", clients))
    ∧ (∀ (clients : Finset Nat) (ws w : Nat), clients.card = MAX_CONNECTIONS →
        w ∈ clients →
        (admitConnection (removeConnection clients w) ws).1 = AdmitResult.accepted) := by
  refine ⟨?_, ?_, ?_⟩
  · intro events
    exact foldl_connStep_card_le events ∅ (by simp)
  · intro clients ws h
    unfold admitConnection
    rw [if_pos (Nat.le_of_eq h.symm)]
  · intro clients ws w h hw
    unfold admitConnection removeConnection
    have hcard : (clients.erase w).card = MAX_CONNECTIONS - 1 := by
      rw [Finset.card_erase_of_mem hw, h]
    rw [if_neg (by rw [hcard]; decide)]

/-- Witness for C2 at concrete inputs: the registry reached from one
connect event respects the bound; admission into the full registry
0,1,2,3,4 is refused and a slot reopens once one member leaves. -/
theorem connection_limit_invariant_witness :
    (runConnEvents [ConnEvent.connect 0]).card ≤ MAX_CONNECTIONS
    ∧ admitConnection {0, 1, 2, 3, 4} 7
        = (AdmitResult.rejected 1013 "Maximum connections reached", {0, 1, 2, 3, 4})
    ∧ (admitConnection (removeConnection {0, 1, 2, 3, 4} 4) 7).1
        = AdmitResult.accepted := by
  refine ⟨connection_limit_invariant.1 [ConnEvent.connect 0],
    connection_limit_invariant.2.1 {0, 1, 2, 3, 4} 7 (by decide),
    connection_limit_invariant.2.2 {0, 1, 2, 3, 4} 7 4 (by decide) (by decide)⟩

/-- C8: An admitted inbound message whose command field equals "health" is
answered with the status payload carrying "ok", the server version and the
live registry count, the loop continues, and no synthesis is attempted;
no hypothesis about the text or voice fields is needed, so length and
voice validation are bypassed. -/
theorem health_check_response (conns : Nat) (dflt : String)
    (synth : Json → String → SynthOutcome) (tr : Tracker) (key : String) (now : Int)
    (raw : Inbound) (fields : List (String × Json))
    (hallow : ((tr key).filter (fun t => now - t < RATE_LIMIT_WINDOW)).length
              < RATE_LIMIT_MAX_REQUESTS)
    (hparse : raw.parse = some (Json.obj fields))
    (hcmd : isHealthCmd (jget fields "command") = true) :
    (handle_message conns dflt synth tr key now raw).sent
      = [Response.health "ok" SERVER_VERSION conns]
    ∧ (handle_message conns dflt synth tr key now raw).outcome = SessionOutcome.next
    ∧ (handle_message conns dflt synth tr key now raw).dispatched = none := by
  simp [handle_message, check_rate_limit_allowed tr key now hallow, decodePhase,
    hparse, hcmd]

/-- Witness for C8: a concrete health-check frame from a fresh client is
answered with the ok/version/count payload, continues the loop and
dispatches no synthesis. -/
theorem health_check_response_witness :
    (handle_message 3 builtinDefaultVoice (fun _ _ => SynthOutcome.mk [] none)
        emptyTracker "client" 0
        (Inbound.mk true "" (some (Json.obj [("command", Json.str "health")])))).sent
      = [Response.health "ok" SERVER_VERSION 3]
    ∧ (handle_message 3 builtinDefaultVoice (fun _ _ => SynthOutcome.mk [] none)
        emptyTracker "client" 0
        (Inbound.mk true "" (some (Json.obj [("command", Json.str "health")])))).dispatched
      = none := by
  have h := health_check_response 3 builtinDefaultVoice (fun _ _ => SynthOutcome.mk [] none)
    emptyTracker "client" 0
    (Inbound.mk true "" (some (Json.obj [("command", Json.str "health")])))
    [("command", Json.str "health")]
    (by decide) rfl rfl
  exact ⟨h.1, h.2.2⟩

/-- C9: The rate gate runs before any decoding: when the pruned budget
still has room, even a health-check message appends its arrival time to
the client's timestamp list (consuming one slot); and when the pruned
budget is exhausted, every message — whatever its content, health checks
included — is answered with the rate-limit error, nothing is dispatched,
and the stored list is the pruned list without the new time. -/
theorem rate_gate_before_decode (conns : Nat) (dflt : String)
    (synth : Json → String → SynthOutcome) (tr : Tracker) (key : String) (now : Int) :
    (∀ (raw : Inbound) (fields : List (String × Json)),
      ((tr key).filter (fun t => now - t < RATE_LIMIT_WINDOW)).length
          < RATE_LIMIT_MAX_REQUESTS →
      raw.parse = some (Json.obj fields) →
      isHealthCmd (jget fields "command") = true →
      (handle_message conns dflt synth tr key now raw).tracker key
        = (tr key).filter (fun t => now - t < RATE_LIMIT_WINDOW) ++ [now]
      ∧ (handle_message conns dflt synth tr key now raw).sent
        = [Response.health "ok" SERVER_VERSION conns])
    ∧ (∀ raw : Inbound,
      RATE_LIMIT_MAX_REQUESTS ≤
          ((tr key).filter (fun t => now - t < RATE_LIMIT_WINDOW)).length →
      (handle_message conns dflt synth tr key now raw).sent
        = [Response.errorMsg rateLimitMessage]
      ∧ (handle_message conns dflt synth tr key now raw).tracker key
        = (tr key).filter (fun t => now - t < RATE_LIMIT_WINDOW)
      ∧ (handle_message conns dflt synth tr key now raw).dispatched = none) := by
  constructor
  · intro raw fields hallow hparse hcmd
    simp [handle_message, check_rate_limit_allowed tr key now hallow, decodePhase,
      hparse, hcmd, trackerSet]
  · intro raw hdeny
    simp [handle_message, check_rate_limit_denied tr key now hdeny, trackerSet]

/-- Witness for C9: from a client with an exhausted window (twenty fresh
timestamps), a health-check frame receives the rate-limit error, while
from a fresh client the same frame consumes one budget slot. -/
theorem rate_gate_before_decode_witness :
    (handle_message 3 builtinDefaultVoice (fun _ _ => SynthOutcome.mk [] none)
        (trackerSet emptyTracker "client"
          [0, 1, 2, 3, 4, 5, 6, 7, 8, 9, 10, 11, 12, 13, 14, 15, 16, 17, 18, 19])
        "client" 20
        (Inbound.mk true "" (some (Json.obj [("command", Json.str "health")])))).sent
      = [Response.errorMsg rateLimitMessage]
    ∧ (handle_message 3 builtinDefaultVoice (fun _ _ => SynthOutcome.mk [] none)
        emptyTracker "client" 0
        (Inbound.mk true "" (some (Json.obj [("command", Json.str "health")])))).tracker
        "client" = [0] := by
  constructor
  · exact ((rate_gate_before_decode 3 builtinDefaultVoice
      (fun _ _ => SynthOutcome.mk [] none)
      (trackerSet emptyTracker "client"
        [0, 1, 2, 3, 4, 5, 6, 7, 8, 9, 10, 11, 12, 13, 14, 15, 16, 17, 18, 19])
      "client" 20).2
      (Inbound.mk true "" (some (Json.obj [("command", Json.str "health")])))
      (by decide)).1
  · exact ((rate_gate_before_decode 3 builtinDefaultVoice
      (fun _ _ => SynthOutcome.mk [] none) emptyTracker "client" 0).1
      (Inbound.mk true "" (some (Json.obj [("command", Json.str "health")])))
      [("command", Json.str "health")] (by decide) rfl rfl).1

/-- C3: Whenever a synthesis request is dispatched, the messages sent for
it are exactly the streamed synthesis output: they contain exactly one
END sentinel, the sentinel is the last message, and when the synthesis
collaborator fails the sequence is zero or more audio chunks, then
exactly one error message, then the sentinel. -/
theorem synthesis_stream_termination (conns : Nat) (dflt : String)
    (synth : Json → String → SynthOutcome) (tr : Tracker) (key : String) (now : Int)
    (raw : Inbound) (t : Json) (v : String)
    (h : (handle_message conns dflt synth tr key now raw).dispatched = some (t, v)) :
    (handle_message conns dflt synth tr key now raw).sent = streamResponses (synth t v)
    ∧ (handle_message conns dflt synth tr key now raw).sent.count Response.endStream = 1
    ∧ (handle_message conns dflt synth tr key now raw).sent.getLast?
        = some Response.endStream
    ∧ (∀ e, (synth t v).failure = some e →
        ∃ pre, (handle_message conns dflt synth tr key now raw).sent
            = pre ++ [Response.errorMsg ("TTS failed: " ++ e), Response.endStream]
          ∧ ∀ r ∈ pre, ∃ d, r = Response.audio d) := by
  obtain ⟨hsent, _⟩ := handle_message_dispatch_inv conns dflt synth tr key now raw t v h
  rw [hsent]
  exact ⟨rfl, streamResponses_end_count (synth t v), streamResponses_last (synth t v),
    fun e he => streamResponses_failure_shape (synth t v) e he⟩

/-- Witness for C3: a concrete dispatched request against a failing
synthesis collaborator that yields one audio chunk and one non-audio
chunk before raising. -/
theorem synthesis_stream_termination_witness :
    (handle_message 1 builtinDefaultVoice
        (fun _ _ => SynthOutcome.mk [Chunk.mk "audio" [1], Chunk.mk "meta" [2]] (some "boom"))
        emptyTracker "client" 0
        (Inbound.mk true "" (some (Json.obj [("text", Json.str "hi")])))).sent.count
        Response.endStream = 1
    ∧ (∃ pre, (handle_message 1 builtinDefaultVoice
        (fun _ _ => SynthOutcome.mk [Chunk.mk "audio" [1], Chunk.mk "meta" [2]] (some "boom"))
        emptyTracker "client" 0
        (Inbound.mk true "" (some (Json.obj [("text", Json.str "hi")])))).sent
          = pre ++ [Response.errorMsg ("TTS failed: " ++ "boom"), Response.endStream]
        ∧ ∀ r ∈ pre, ∃ d, r = Response.audio d) := by
  have h := synthesis_stream_termination 1 builtinDefaultVoice
    (fun _ _ => SynthOutcome.mk [Chunk.mk "audio" [1], Chunk.mk "meta" [2]] (some "boom"))
    emptyTracker "client" 0
    (Inbound.mk true "" (some (Json.obj [("text", Json.str "hi")])))
    (Json.str "hi") builtinDefaultVoice rfl
  exact ⟨h.2.1, h.2.2.2 "boom" rfl⟩

/-- C10: For a dispatched synthesis request, the audio messages sent are
exactly those produced from the collaborator's chunks whose type field is
"audio", in order; chunks of any other type contribute nothing, and the
sequence still terminates with the sentinel. -/
theorem audio_only_forwarding (conns : Nat) (dflt : String)
    (synth : Json → String → SynthOutcome) (tr : Tracker) (key : String) (now : Int)
    (raw : Inbound) (t : Json) (v : String)
    (h : (handle_message conns dflt synth tr key now raw).dispatched = some (t, v)) :
    (handle_message conns dflt synth tr key now raw).sent.filter isAudioResp
      = ((synth t v).chunks.filter (fun c => c.type == "audio")).map
          (fun c => Response.audio c.data)
    ∧ (handle_message conns dflt synth tr key now raw).sent.getLast?
        = some Response.endStream := by
  obtain ⟨hsent, _⟩ := handle_message_dispatch_inv conns dflt synth tr key now raw t v h
  rw [hsent]
  refine ⟨?_, streamResponses_last (synth t v)⟩
  unfold streamResponses
  rw [List.filter_append]
  have h1 : (((synth t v).chunks.filter (fun c => c.type == "audio")).map
      (fun c => Response.audio c.data)).filter isAudioResp
      = ((synth t v).chunks.filter (fun c => c.type == "audio")).map
          (fun c => Response.audio c.data) := by
    apply List.filter_eq_self.mpr
    intro a ha
    obtain ⟨c, _, hc⟩ := List.mem_map.mp ha
    rw [← hc]
    rfl
  rw [h1]
  cases hfail : (synth t v).failure <;> simp [isAudioResp]

/-- Witness for C10: with a collaborator that yields a non-audio chunk
between two audio chunks, only the audio chunks are forwarded and the
sentinel still ends the sequence. -/
theorem audio_only_forwarding_witness :
    (handle_message 1 builtinDefaultVoice
        (fun _ _ => SynthOutcome.mk
          [Chunk.mk "audio" [1], Chunk.mk "WordBoundary" [9], Chunk.mk "audio" [2]] none)
        emptyTracker "client" 0
        (Inbound.mk true "" (some (Json.obj [("text", Json.str "hi")])))).sent.filter
        isAudioResp
      = [Response.audio [1], Response.audio [2]]
    ∧ (handle_message 1 builtinDefaultVoice
        (fun _ _ => SynthOutcome.mk
          [Chunk.mk "audio" [1], Chunk.mk "WordBoundary" [9], Chunk.mk "audio" [2]] none)
        emptyTracker "client" 0
        (Inbound.mk true "" (some (Json.obj [("text", Json.str "hi")])))).sent.getLast?
      = some Response.endStream := by
  have h := audio_only_forwarding 1 builtinDefaultVoice
    (fun _ _ => SynthOutcome.mk
      [Chunk.mk "audio" [1], Chunk.mk "WordBoundary" [9], Chunk.mk "audio" [2]] none)
    emptyTracker "client" 0
    (Inbound.mk true "" (some (Json.obj [("text", Json.str "hi")])))
    (Json.str "hi") builtinDefaultVoice rfl
  exact ⟨h.1, h.2⟩

/-- C6: For an admitted, structurally decoded request whose text is a
string and whose voice field is absent, text of length exactly
MAX_TEXT_LENGTH is dispatched to synthesis, while text of length greater
than MAX_TEXT_LENGTH is answered with the length-error message, nothing
is dispatched, and the loop continues. -/
theorem text_length_boundary (conns : Nat) (dflt : String)
    (synth : Json → String → SynthOutcome) (tr : Tracker) (key : String) (now : Int)
    (raw : Inbound) (fields : List (String × Json)) (s : String)
    (hallow : ((tr key).filter (fun t => now - t < RATE_LIMIT_WINDOW)).length
              < RATE_LIMIT_MAX_REQUESTS)
    (hparse : raw.parse = some (Json.obj fields))
    (hnothealth : isHealthCmd (jget fields "command") = false)
    (htext : jget fields "text" = some (Json.str s))
    (hvoice : jget fields "voice" = none) :
    (s.length = MAX_TEXT_LENGTH →
      (handle_message conns dflt synth tr key now raw).dispatched
        = some (Json.str s, dflt)
      ∧ (handle_message conns dflt synth tr key now raw).outcome = SessionOutcome.next)
    ∧ (MAX_TEXT_LENGTH < s.length →
      (handle_message conns dflt synth tr key now raw).sent
        = [Response.errorMsg lengthMessage]
      ∧ (handle_message conns dflt synth tr key now raw).dispatched = none
      ∧ (handle_message conns dflt synth tr key now raw).outcome = SessionOutcome.next) := by
  constructor
  · intro hs
    have hn : ¬(MAX_TEXT_LENGTH < s.length) := by omega
    simp [handle_message, check_rate_limit_allowed tr key now hallow, decodePhase,
      hparse, hnothealth, htext, hvoice, pyLen, resolveVoice, hn]
  · intro hlt
    simp [handle_message, check_rate_limit_allowed tr key now hallow, decodePhase,
      hparse, hnothealth, htext, hvoice, pyLen, resolveVoice, hlt]

/-- Witness for C6: a request whose text is exactly 5000 characters is
dispatched; one of 5001 characters is refused with the length error and
nothing is dispatched. -/
theorem text_length_boundary_witness :
    (handle_message 1 builtinDefaultVoice (fun _ _ => SynthOutcome.mk [] none)
        emptyTracker "client" 0
        (Inbound.mk true "" (some (Json.obj
          [("text", Json.str (String.mk (List.replicate 5000 'a')))])))).dispatched
      = some (Json.str (String.mk (List.replicate 5000 'a')), builtinDefaultVoice)
    ∧ (handle_message 1 builtinDefaultVoice (fun _ _ => SynthOutcome.mk [] none)
        emptyTracker "client" 0
        (Inbound.mk true "" (some (Json.obj
          [("text", Json.str (String.mk (List.replicate 5001 'a')))])))).sent
      = [Response.errorMsg lengthMessage] := by
  constructor
  · exact ((text_length_boundary 1 builtinDefaultVoice (fun _ _ => SynthOutcome.mk [] none)
      emptyTracker "client" 0
      (Inbound.mk true "" (some (Json.obj
        [("text", Json.str (String.mk (List.replicate 5000 'a')))])))
      [("text", Json.str (String.mk (List.replicate 5000 'a')))]
      (String.mk (List.replicate 5000 'a'))
      (by decide) rfl rfl rfl rfl).1
      (by show (List.replicate 5000 'a').length = MAX_TEXT_LENGTH
          rw [List.length_replicate]
          decide)).1
  · exact ((text_length_boundary 1 builtinDefaultVoice (fun _ _ => SynthOutcome.mk [] none)
      emptyTracker "client" 0
      (Inbound.mk true "" (some (Json.obj
        [("text", Json.str (String.mk (List.replicate 5001 'a')))])))
      [("text", Json.str (String.mk (List.replicate 5001 'a')))]
      (String.mk (List.replicate 5001 'a'))
      (by decide) rfl rfl rfl rfl).2
      (by show MAX_TEXT_LENGTH < (List.replicate 5001 'a').length
          rw [List.length_replicate]
          decide)).1

/-- C5 (code-bug evidence): an admitted text frame containing "5" — valid
JSON, but not an object — makes `msg.get("command")` raise AttributeError,
which the except clause does not catch: the session crashes and nothing is
sent, although the raw message is non-empty text, so the fallback the spec
prescribes would have produced the request text "5" (last conjunct), and a
frame that genuinely fails `json.loads` does take that fallback (third
conjunct). -/
theorem decode_crash_on_nonobject_json :
    (handle_message 1 builtinDefaultVoice (fun _ _ => SynthOutcome.mk [] none)
        emptyTracker "client" 0 (Inbound.mk true "5" (some (Json.num 5)))).outcome
      = SessionOutcome.crash
    ∧ (handle_message 1 builtinDefaultVoice (fun _ _ => SynthOutcome.mk [] none)
        emptyTracker "client" 0 (Inbound.mk true "5" (some (Json.num 5)))).sent = []
    ∧ decodePhase (Inbound.mk true "hello" none)
        = Decoded.request (Json.str "hello") none
    ∧ fallbackDecode (Inbound.mk true "5" (some (Json.num 5)))
        = Decoded.request (Json.str "5") none :=
  ⟨rfl, rfl, rfl, rfl⟩

/-- C4 (counterexample): with the configured default voice overridden to
"bogus" — a value outside ALLOWED_VOICES, which line 14 permits via the
EDGE_TTS_VOICE environment variable — a request naming the unknown voice
"nope" is dispatched with the voice "bogus", so the voice forwarded to the
synthesis collaborator is not a member of the allow-set. -/
theorem voice_allowset_counterexample :
    (handle_message 1 "bogus" (fun _ _ => SynthOutcome.mk [] none) emptyTracker "client" 0
        (Inbound.mk true "" (some (Json.obj
          [("text", Json.str "hi"), ("voice", Json.str "nope")])))).dispatched
      = some (Json.str "hi", "bogus")
    ∧ "bogus" ∉ ALLOWED_VOICES :=
  ⟨rfl, by decide⟩

theorem resolveVoice_mem (dflt : String) (vj : Option Json) (v : String)
    (h : resolveVoice dflt vj = some v) (hd : dflt ∈ ALLOWED_VOICES) :
    v ∈ ALLOWED_VOICES := by
  cases vj with
  | none =>
    simp [resolveVoice] at h
    exact h ▸ hd
  | some j =>
    cases j with
    | str s =>
      simp only [resolveVoice, Option.some.injEq] at h
      by_cases hm : s ∈ ALLOWED_VOICES
      · rw [if_pos hm] at h
        exact h ▸ hm
      · rw [if_neg hm] at h
        exact h ▸ hd
    | num n => simp [resolveVoice] at h; exact h ▸ hd
    | bool b => simp [resolveVoice] at h; exact h ▸ hd
    | null => simp [resolveVoice] at h; exact h ▸ hd
    | arr xs => simp [resolveVoice] at h
    | obj fs => simp [resolveVoice] at h

/-- C4 (amended): for an admitted, decoded synthesis request whose voice
field resolves (is absent or hashable), the request is dispatched with the
resolved voice and never answered with a voice error; an absent voice and
a string voice outside the allow-set are both silently replaced by the
configured default; and the forwarded voice is a member of the allow-set
whenever the configured default is. -/
theorem voice_fallback_amended (conns : Nat) (dflt : String)
    (synth : Json → String → SynthOutcome) (tr : Tracker) (key : String) (now : Int)
    (raw : Inbound) (fields : List (String × Json)) (t : Json) (v : String)
    (hallow : ((tr key).filter (fun x => now - x < RATE_LIMIT_WINDOW)).length
              < RATE_LIMIT_MAX_REQUESTS)
    (hparse : raw.parse = some (Json.obj fields))
    (hnothealth : isHealthCmd (jget fields "command") = false)
    (htext : jget fields "text" = some t)
    (hlen : ∃ n, pyLen t = some n ∧ n ≤ MAX_TEXT_LENGTH)
    (hres : resolveVoice dflt (jget fields "voice") = some v) :
    (handle_message conns dflt synth tr key now raw).dispatched = some (t, v)
    ∧ (handle_message conns dflt synth tr key now raw).sent = streamResponses (synth t v)
    ∧ (handle_message conns dflt synth tr key now raw).outcome = SessionOutcome.next
    ∧ (dflt ∈ ALLOWED_VOICES → v ∈ ALLOWED_VOICES)
    ∧ (∀ s, jget fields "voice" = some (Json.str s) → s ∉ ALLOWED_VOICES → v = dflt)
    ∧ (jget fields "voice" = none → v = dflt) := by
  obtain ⟨n, hp, hle⟩ := hlen
  have hn : ¬(MAX_TEXT_LENGTH < n) := by omega
  refine ⟨?_, ?_, ?_, fun hd => resolveVoice_mem dflt (jget fields "voice") v hres hd,
    ?_, ?_⟩
  · simp [handle_message, check_rate_limit_allowed tr key now hallow, decodePhase,
      hparse, hnothealth, htext, hp, hn, hres]
  · simp [handle_message, check_rate_limit_allowed tr key now hallow, decodePhase,
      hparse, hnothealth, htext, hp, hn, hres]
  · simp [handle_message, check_rate_limit_allowed tr key now hallow, decodePhase,
      hparse, hnothealth, htext, hp, hn, hres]
  · intro s hvs hns
    rw [hvs] at hres
    simp [resolveVoice, hns] at hres
    exact hres.symm
  · intro h0
    rw [h0] at hres
    simp [resolveVoice] at hres
    exact hres.symm

/-- Witness for the amended C4: a request naming the unknown voice "nope"
under the built-in default is dispatched with that default, which is in
the allow-set. -/
theorem voice_fallback_amended_witness :
    (handle_message 1 builtinDefaultVoice (fun _ _ => SynthOutcome.mk [] none)
        emptyTracker "client" 0
        (Inbound.mk true "" (some (Json.obj
          [("text", Json.str "hi"), ("voice", Json.str "nope")])))).dispatched
      = some (Json.str "hi", builtinDefaultVoice)
    ∧ builtinDefaultVoice ∈ ALLOWED_VOICES := by
  have h := voice_fallback_amended 1 builtinDefaultVoice
    (fun _ _ => SynthOutcome.mk [] none) emptyTracker "client" 0
    (Inbound.mk true "" (some (Json.obj
      [("text", Json.str "hi"), ("voice", Json.str "nope")])))
    [("text", Json.str "hi"), ("voice", Json.str "nope")]
    (Json.str "hi") builtinDefaultVoice
    (by decide) rfl rfl rfl ⟨2, rfl, by decide⟩ (by decide)
  exact ⟨h.1, h.2.2.2.1 (by decide)⟩

/-- C7 (counterexample): with one active session, the listener-stop action
is not among the actions performed before the first bounded wait — the
coordinator waits up to the drain timeout for session closes before it
stops accepting new connections, so the listener does not stop
immediately upon the trigger. -/
theorem shutdown_not_immediate_counterexample :
    ShutdownAction.stopListener ∉ issuedBeforeFirstWait (shutdownSequence [0]) := by
  decide

theorem takeWhile_notWait_closes (clients : List Nat) (rest : List ShutdownAction) :
    ((clients.map (fun ws => ShutdownAction.closeSession ws 1001 "Server shutting down"))
        ++ rest).takeWhile notWait
      = clients.map (fun ws => ShutdownAction.closeSession ws 1001 "Server shutting down")
        ++ rest.takeWhile notWait := by
  induction clients with
  | nil => rfl
  | cons c cs ih => simp [List.takeWhile_cons, notWait, ih]

/-- C7 (amended): on the shutdown trigger, every active session's close
request (code 1001, "Server shutting down") is issued before any waiting;
all waits are bounded by SHUTDOWN_TIMEOUT; the listener stop happens
exactly once, but — whenever any session is active — only after the
bounded drain wait, not immediately. -/
theorem shutdown_drain_order (clients : List Nat) :
    (∀ ws ∈ clients,
      ShutdownAction.closeSession ws 1001 "Server shutting down"
        ∈ issuedBeforeFirstWait (shutdownSequence clients))
    ∧ (shutdownSequence clients).count ShutdownAction.stopListener = 1
    ∧ (∀ t, ShutdownAction.waitBounded t ∈ shutdownSequence clients → t = SHUTDOWN_TIMEOUT)
    ∧ (clients ≠ [] →
        ShutdownAction.stopListener ∉ issuedBeforeFirstWait (shutdownSequence clients)) := by
  cases clients with
  | nil =>
    refine ⟨by simp, by decide, ?_, by simp⟩
    intro t ht
    simpa [shutdownSequence] using ht
  | cons c cs =>
    have hseq : shutdownSequence (c :: cs)
        = (c :: cs).map (fun ws => ShutdownAction.closeSession ws 1001 "Server shutting down")
          ++ ([ShutdownAction.waitBounded SHUTDOWN_TIMEOUT]
              ++ [ShutdownAction.stopListener,
                  ShutdownAction.waitBounded SHUTDOWN_TIMEOUT]) := by
      simp [shutdownSequence]
    have hiw : issuedBeforeFirstWait (shutdownSequence (c :: cs))
        = (c :: cs).map (fun ws => ShutdownAction.closeSession ws 1001 "Server shutting down") := by
      rw [hseq]
      unfold issuedBeforeFirstWait
      rw [takeWhile_notWait_closes]
      simp [List.takeWhile_cons, notWait]
    refine ⟨?_, ?_, ?_, ?_⟩
    · intro ws hws
      rw [hiw]
      exact List.mem_map.mpr ⟨ws, hws, rfl⟩
    · rw [hseq, List.count_append]
      have hz : ((c :: cs).map
          (fun ws => ShutdownAction.closeSession ws 1001 "Server shutting down")).count
            ShutdownAction.stopListener = 0 := by
        apply List.count_eq_zero.mpr
        intro hmem
        obtain ⟨w, _, hw⟩ := List.mem_map.mp hmem
        simp at hw
      rw [hz]
      decide
    · intro t ht
      rw [hseq] at ht
      rcases List.mem_append.mp ht with hm | hm
      · obtain ⟨w, _, hw⟩ := List.mem_map.mp hm
        simp at hw
      · simpa using hm
    · intro _
      rw [hiw]
      intro hmem
      obtain ⟨w, _, hw⟩ := List.mem_map.mp hmem
      simp at hw

/-- Witness for the amended C7: with the single active session 7, its
close request is issued before any wait, and the listener stop occurs
exactly once. -/
theorem shutdown_drain_order_witness :
    ShutdownAction.closeSession 7 1001 "Server shutting down"
      ∈ issuedBeforeFirstWait (shutdownSequence [7])
    ∧ (shutdownSequence [7]).count ShutdownAction.stopListener = 1 :=
  ⟨(shutdown_drain_order [7]).1 7 (by decide), (shutdown_drain_order [7]).2.1⟩

end ClawK
